import Mathlib

/-!
Verification of the movie-catalog aggregation backend
(backend/routes/api/library.js) against its specification.

The router aggregates two upstream movie providers (a primary "yts"
provider and a secondary "popcorn" provider) plus a third-party keyword
search API.  Upstream fetch and normalisation helpers
(getMovies, getMovieMoreInfo, formatYtsResponse, formatPopResponse,
retMax in utils/LibraryFunctions) are not part of the given sources;
where the handlers depend on them they are modelled from the spec, as
marked in the corresponding doc comments.  The handler control flow is
translated directly from library.js.
-/

namespace Hypertube

/-- A torrent entry of a normalized movie record (spec section 3). -/
structure Torrent where
  quality : String
  seeds : Nat
  peers : Nat
  url : String
deriving DecidableEq, Repr

/-- A normalized movie record (spec section 3): identifier, title, year,
runtime, rating, genres, summary, language, cover image, torrents. -/
structure Movie where
  imdb_code : String
  title : String
  year : Nat
  runtime : Nat
  rating : Int
  genres : List String
  summary : String
  language : String
  large_cover_image : String
  torrents : List Torrent
deriving DecidableEq, Repr

/-- Outcome of a handler: HTTP 404, HTTP 500, or HTTP 200 with a JSON
list of movie records. -/
inductive ApiResponse where
  | notFound
  | serverError
  | ok (movies : List Movie)
deriving DecidableEq, Repr

/-- Modelled from the spec: getMovieMoreInfo (utils/LibraryFunctions is
not among the given sources) enriches each movie record with extra
detail via a follow-up fetch, preserving the length and order of the
list.  The per-record enrichment is kept as a parameter. -/
def getMovieMoreInfo (moreInfo : Movie → Movie) (movies : List Movie) : List Movie :=
  movies.map moreInfo

/-- Auxiliary accumulator for lodash uniqBy: keeps an element when its
key has not been seen yet, scanning left to right. -/
def uniqByAux {α κ : Type} [DecidableEq κ] (key : α → κ) (seen : List κ) : List α → List α
  | [] => []
  | x :: xs =>
    if key x ∈ seen then uniqByAux key seen xs
    else x :: uniqByAux key (key x :: seen) xs

/-- lodash uniqBy: keep the first occurrence for each key. -/
def uniqBy {α κ : Type} [DecidableEq κ] (key : α → κ) (xs : List α) : List α :=
  uniqByAux key [] xs

/-- lodash orderBy with a single iteratee and order "desc": stable sort,
largest key first. -/
def orderByDesc {α β : Type} [LinearOrder β] (key : α → β) (xs : List α) : List α :=
  xs.insertionSort (fun a b => key b ≤ key a)

/-- The largest seed count over a movie record torrents list
(0 when the list is empty). -/
def maxSeeds (m : Movie) : Nat :=
  (m.torrents.map Torrent.seeds).foldr max 0

/-- GET /movies/page/ handler (library.js lines 25-52), after the two
upstream fetches.  ytsResult is the primary provider list after
getMovies and getMovieMoreInfo, none when falsy; popResult is the
secondary provider list, none when falsy.  The sort field requested via
sort_by is modelled by the key function. -/
def moviesPageHandler {β : Type} [LinearOrder β] (sortKey : Movie → β)
    (ytsResult : Option (List Movie)) (popResult : Option (List Movie)) : ApiResponse :=
  match ytsResult with
  | none => .notFound
  | some yts =>
    match popResult with
    | none => .ok yts
    | some pop =>
      if pop.isEmpty then .ok yts
      else
        let result := yts ++ pop
        let filtred := uniqBy Movie.imdb_code result
        .ok (orderByDesc sortKey filtred)

/-- Seed count of the first torrent of the first record of a list, as
read by the expression ytsData[0].torrents[0].seeds in library.js line
174: none when the indexing would dereference undefined and throw. -/
def firstTorrentSeeds? (ms : List Movie) : Option Nat :=
  match ms with
  | [] => none
  | m :: _ =>
    match m.torrents with
    | [] => none
    | t :: _ => some t.seeds

/-- GET /movies/imdb_code/:imdb_code handler (library.js lines 140-182),
after the upstream fetches.  ytsData is the formatted primary list, none
when parsedMoviesYts.data.movies is falsy (line 155); popResult is the
parsed secondary record, none when the response body is falsy (line
164).  JSON parsing and formatYtsResponse / formatPopResponse are folded
into these inputs since the normalizers are not among the given sources.
The seed comparison at line 174 reads index 0 of each torrents list;
when that indexing dereferences undefined the thrown TypeError is caught
at line 179 and answered with HTTP 500. -/
def imdbCodeHandler (moreInfo : Movie → Movie) (ytsData : Option (List Movie))
    (popResult : Option Movie) : ApiResponse :=
  match ytsData with
  | none => .notFound
  | some ytsData =>
    match popResult with
    | none => .ok ytsData
    | some popMovie =>
      let parsedMoviesPop := [popMovie]
      if parsedMoviesPop.isEmpty then .ok ytsData
      else
        match firstTorrentSeeds? ytsData, firstTorrentSeeds? parsedMoviesPop with
        | some ys, some ps =>
          if ps ≤ ys then .ok (getMovieMoreInfo moreInfo ytsData)
          else .ok (getMovieMoreInfo moreInfo parsedMoviesPop)
        | _, _ => .serverError

/-- Comparison used by the keyword flow when sorting accumulated movies
by title ascending (library.js lines 104 and 122). -/
def titleLe (a b : Movie) : Prop := a.title ≤ b.title

instance : DecidableRel titleLe := fun a b => String.decidableLE a.title b.title

/-- Modelled from the spec: retMax combined with lodash uniqWith
(utils/LibraryFunctions is not among the given sources) performs the
final dedup-by-max-seed pass of the keyword flow, keeping for each
identifier the record with the higher maximum torrent seed count,
in order of first occurrence. -/
def insertBest (m : Movie) : List Movie → List Movie
  | [] => [m]
  | x :: xs =>
    if x.imdb_code = m.imdb_code then
      (if maxSeeds m > maxSeeds x then m else x) :: xs
    else x :: insertBest m xs

/-- Modelled from the spec: the dedup-by-max-seed pass over a whole
list, scanning left to right (see insertBest). -/
def uniqWithRetMax (ms : List Movie) : List Movie :=
  ms.foldl (fun acc m => insertBest m acc) []

/-- The primary-provider loop of the keyword handler (library.js lines
88-103): for each candidate identifier, fetch from the yts provider;
when data.movies is falsy set torrentFail and break out of the loop;
otherwise prepend the formatted data and re-enrich the accumulated list.
Returns the accumulated movies and the torrentFail flag. -/
def ytsAccumLoop (moreInfo : Movie → Movie) (ytsFor : String → Option (List Movie)) :
    List String → List Movie → List Movie × Bool
  | [], movies => (movies, false)
  | c :: rest, movies =>
    match ytsFor c with
    | none => (movies, true)
    | some ytsData =>
      ytsAccumLoop moreInfo ytsFor rest (getMovieMoreInfo moreInfo (ytsData ++ movies))

/-- The secondary-provider loop of the keyword handler together with the
final sort and dedup (library.js lines 105-125): for each candidate,
fetch from the popcorn provider; a falsy body means continue; otherwise
the parsed record is pushed into a fresh array whose emptiness is then
tested against the torrentFail flag (lines 114-117) before the record is
prepended.  After the loop the list is sorted by title and deduped by
the retMax pass. -/
def popAccumLoop (popFor : String → Option Movie) (torrentFail : Bool) :
    List String → List Movie → ApiResponse
  | [], movies => .ok (uniqWithRetMax (movies.insertionSort titleLe))
  | c :: rest, movies =>
    match popFor c with
    | none => popAccumLoop popFor torrentFail rest movies
    | some popMovie =>
      let parsedMoviesPop := [popMovie]
      if parsedMoviesPop.isEmpty ∧ torrentFail then .notFound
      else if parsedMoviesPop.isEmpty ∧ ¬ torrentFail then .ok movies
      else popAccumLoop popFor torrentFail rest (parsedMoviesPop ++ movies)

/-- The secondary-provider loop with the two branches guarded by the
emptiness test removed: used to state that those branches are dead. -/
def popAccumLoopClean (popFor : String → Option Movie) :
    List String → List Movie → ApiResponse
  | [], movies => .ok (uniqWithRetMax (movies.insertionSort titleLe))
  | c :: rest, movies =>
    match popFor c with
    | none => popAccumLoopClean popFor rest movies
    | some popMovie => popAccumLoopClean popFor rest ([popMovie] ++ movies)

/-- Response of the third-party search API: whether body.Response was
the string True, and the candidate imdb identifiers of body.Search. -/
structure SearchResponse where
  responseOk : Bool
  search : List String
deriving Repr

/-- GET /movies/keyword/:keyword handler (library.js lines 62-130),
after the search fetch.  The candidate list is deduped (line 84), the
Response flag is tested (line 85), then the primary loop, the title
sort, and the secondary loop run in order.  ytsFor and popFor model the
per-candidate upstream fetches combined with parsing and the
normalizers (which are not among the given sources), none standing for
a falsy result. -/
def keywordHandler (moreInfo : Movie → Movie) (ytsFor : String → Option (List Movie))
    (popFor : String → Option Movie) (sr : SearchResponse) : ApiResponse :=
  let cands := uniqBy (fun s => s) sr.search
  if sr.responseOk = false then .notFound
  else
    let step1 := ytsAccumLoop moreInfo ytsFor cands []
    let movies2 := step1.1.insertionSort titleLe
    popAccumLoop popFor step1.2 cands movies2

/-! Helper lemmas about uniqBy (lodash semantics: first occurrence per
key is kept). -/

theorem uniqByAux_key_not_mem {α κ : Type} [DecidableEq κ] (key : α → κ)
    (xs : List α) : ∀ (seen : List κ) (x : α), x ∈ uniqByAux key seen xs → key x ∉ seen := by
  induction xs with
  | nil => intro seen x h; simp [uniqByAux] at h
  | cons y ys ih =>
    intro seen x h
    simp only [uniqByAux] at h
    by_cases hy : key y ∈ seen
    · rw [if_pos hy] at h
      exact ih seen x h
    · rw [if_neg hy] at h
      rcases List.mem_cons.mp h with rfl | h2
      · exact hy
      · intro hx
        exact ih (key y :: seen) x h2 (List.mem_cons_of_mem _ hx)

theorem uniqByAux_find? {α κ : Type} [DecidableEq κ] (key : α → κ)
    (xs : List α) : ∀ (seen : List κ) (x : α), x ∈ uniqByAux key seen xs →
      xs.find? (fun y => decide (key y = key x)) = some x := by
  induction xs with
  | nil => intro seen x h; simp [uniqByAux] at h
  | cons y ys ih =>
    intro seen x h
    simp only [uniqByAux] at h
    by_cases hy : key y ∈ seen
    · rw [if_pos hy] at h
      have hne : ¬ (key y = key x) := by
        intro he
        exact uniqByAux_key_not_mem key ys seen x h (he ▸ hy)
      rw [List.find?_cons_of_neg _ (by simpa using hne)]
      exact ih seen x h
    · rw [if_neg hy] at h
      rcases List.mem_cons.mp h with rfl | h2
      · rw [List.find?_cons_of_pos _ (by simp)]
      · have hne : ¬ (key y = key x) := by
          intro he
          exact uniqByAux_key_not_mem key ys (key y :: seen) x h2
            (by rw [← he]; exact List.mem_cons_self _ _)
        rw [List.find?_cons_of_neg _ (by simpa using hne)]
        exact ih (key y :: seen) x h2

theorem uniqByAux_keys_nodup {α κ : Type} [DecidableEq κ] (key : α → κ)
    (xs : List α) : ∀ (seen : List κ), ((uniqByAux key seen xs).map key).Nodup := by
  induction xs with
  | nil => intro seen; simp [uniqByAux]
  | cons y ys ih =>
    intro seen
    simp only [uniqByAux]
    by_cases hy : key y ∈ seen
    · rw [if_pos hy]
      exact ih seen
    · rw [if_neg hy]
      simp only [List.map_cons, List.nodup_cons]
      refine ⟨fun hmem => ?_, ih (key y :: seen)⟩
      rcases List.mem_map.mp hmem with ⟨z, hz, hkz⟩
      exact uniqByAux_key_not_mem key ys (key y :: seen) z hz
        (by rw [hkz]; exact List.mem_cons_self _ _)

theorem uniqBy_keys_nodup {α κ : Type} [DecidableEq κ] (key : α → κ)
    (xs : List α) : ((uniqBy key xs).map key).Nodup :=
  uniqByAux_keys_nodup key xs []

theorem uniqBy_find? {α κ : Type} [DecidableEq κ] (key : α → κ)
    (xs : List α) (x : α) (h : x ∈ uniqBy key xs) :
    xs.find? (fun y => decide (key y = key x)) = some x :=
  uniqByAux_find? key xs [] x h

/-! Concrete example records used by witnesses and counterexamples. -/

/-- A torrent with a given seed count. -/
def exTorrent (s : Nat) : Torrent :=
  { quality := "720p", seeds := s, peers := 0, url := "magnet" }

/-- Example record with identifier tt0000001, rating 8, best torrent 50 seeds. -/
def movieA : Movie :=
  { imdb_code := "tt0000001", title := "Alpha", year := 2000, runtime := 90, rating := 8
    genres := ["Drama"], summary := "s", language := "en", large_cover_image := "u"
    torrents := [exTorrent 50] }

/-- Example record sharing the identifier of movieA, rating 7, best torrent 80 seeds. -/
def movieA2 : Movie :=
  { movieA with rating := 7, torrents := [exTorrent 80] }

/-- Example record with identifier tt0000002, rating 9, best torrent 80 seeds. -/
def movieB : Movie :=
  { imdb_code := "tt0000002", title := "Beta", year := 2001, runtime := 95, rating := 9
    genres := ["Drama"], summary := "s", language := "en", large_cover_image := "u"
    torrents := [exTorrent 80] }

/-! Claims about the page-listing handler. -/

/-- Claim C6: when the primary provider returns no data for the page,
the handler answers 404, whatever the secondary provider would have
returned (the fetch of the secondary happens after the 404 return in
library.js, so the outcome is independent of it). -/
theorem pageHandler_primary_no_data {β : Type} [LinearOrder β] (sortKey : Movie → β)
    (popResult : Option (List Movie)) :
    moviesPageHandler sortKey none popResult = ApiResponse.notFound := rfl

/-- Claim C4: when the secondary provider returns no data (falsy body or
empty list) and the primary returns a list, the handler returns exactly
the primary list; with the fetcher contract modelled from the spec that
the primary list arrives sorted by the requested field, the response is
that sorted list. -/
theorem pageHandler_secondary_empty {β : Type} [LinearOrder β] (sortKey : Movie → β)
    (yts : List Movie) (popResult : Option (List Movie))
    (hpop : popResult = none ∨ popResult = some [])
    (hsorted : yts.Sorted (fun a b => sortKey b ≤ sortKey a)) :
    moviesPageHandler sortKey (some yts) popResult = ApiResponse.ok yts ∧
      yts.Sorted (fun a b => sortKey b ≤ sortKey a) := by
  rcases hpop with rfl | rfl
  · exact ⟨rfl, hsorted⟩
  · exact ⟨rfl, hsorted⟩

/-- Witness for C4 at a concrete input. -/
theorem pageHandler_secondary_empty_witness :
    moviesPageHandler Movie.rating (some [movieB, movieA]) none =
        ApiResponse.ok [movieB, movieA] ∧
      ([movieB, movieA] : List Movie).Sorted (fun a b => Movie.rating b ≤ Movie.rating a) :=
  pageHandler_secondary_empty Movie.rating [movieB, movieA] none (Or.inl rfl) (by decide)

/-- Claim C5: a 200 list built from both providers is ordered descending
by the requested sort field. -/
theorem pageHandler_merged_sorted {β : Type} [LinearOrder β] (sortKey : Movie → β)
    (yts pop : List Movie) (hpop : pop ≠ []) :
    ∃ m, moviesPageHandler sortKey (some yts) (some pop) = ApiResponse.ok m ∧
      m.Sorted (fun a b => sortKey b ≤ sortKey a) := by
  have hempty : pop.isEmpty = false := by
    cases pop with
    | nil => exact absurd rfl hpop
    | cons a l => rfl
  refine ⟨orderByDesc sortKey (uniqBy Movie.imdb_code (yts ++ pop)), ?_, ?_⟩
  · simp [moviesPageHandler, hempty]
  · unfold orderByDesc
    haveI : IsTotal Movie (fun a b => sortKey b ≤ sortKey a) :=
      ⟨fun a b => le_total (sortKey b) (sortKey a)⟩
    haveI : IsTrans Movie (fun a b => sortKey b ≤ sortKey a) :=
      ⟨fun a b c hab hbc => le_trans hbc hab⟩
    exact List.sorted_insertionSort _ _

/-- Witness for C5 at a concrete input. -/
theorem pageHandler_merged_sorted_witness :
    ∃ m, moviesPageHandler Movie.rating (some [movieA]) (some [movieB]) = ApiResponse.ok m ∧
      m.Sorted (fun a b => Movie.rating b ≤ Movie.rating a) :=
  pageHandler_merged_sorted Movie.rating [movieA] [movieB] (by decide)

/-- Claim C2: a 200 list built from both providers holds no two records
with the same identifier, and each kept record is the first occurrence
of its identifier in the concatenation primary ++ secondary. -/
theorem pageHandler_dedup_first_occurrence {β : Type} [LinearOrder β] (sortKey : Movie → β)
    (yts pop : List Movie) (hpop : pop ≠ []) :
    ∃ m, moviesPageHandler sortKey (some yts) (some pop) = ApiResponse.ok m ∧
      (m.map Movie.imdb_code).Nodup ∧
      ∀ x ∈ m, (yts ++ pop).find? (fun y => decide (y.imdb_code = x.imdb_code)) = some x := by
  have hempty : pop.isEmpty = false := by
    cases pop with
    | nil => exact absurd rfl hpop
    | cons a l => rfl
  have hperm : List.Perm (orderByDesc sortKey (uniqBy Movie.imdb_code (yts ++ pop)))
      (uniqBy Movie.imdb_code (yts ++ pop)) := List.perm_insertionSort _ _
  refine ⟨orderByDesc sortKey (uniqBy Movie.imdb_code (yts ++ pop)), ?_, ?_, ?_⟩
  · simp [moviesPageHandler, hempty]
  · exact (hperm.map Movie.imdb_code).nodup_iff.mpr (uniqBy_keys_nodup Movie.imdb_code _)
  · intro x hx
    exact uniqBy_find? Movie.imdb_code (yts ++ pop) x (hperm.mem_iff.mp hx)

/-- Witness for C2 at a concrete input where the secondary repeats an
identifier of the primary. -/
theorem pageHandler_dedup_first_occurrence_witness :
    ∃ m, moviesPageHandler Movie.rating (some [movieA]) (some [movieA2, movieB]) =
        ApiResponse.ok m ∧
      (m.map Movie.imdb_code).Nodup ∧
      ∀ x ∈ m, ([movieA] ++ [movieA2, movieB]).find?
        (fun y => decide (y.imdb_code = x.imdb_code)) = some x :=
  pageHandler_dedup_first_occurrence Movie.rating [movieA] [movieA2, movieB] (by decide)

/-! Claims about the identifier-lookup handler. -/

/-- Primary record for the C1 counterexample: first torrent has 10
seeds, maximum over the list is 100. -/
def ytsMovieC1 : Movie :=
  { imdb_code := "tt0000003", title := "Gamma", year := 2002, runtime := 100, rating := 7
    genres := ["Action"], summary := "s", language := "en", large_cover_image := "u"
    torrents := [exTorrent 10, exTorrent 100] }

/-- Secondary record for the C1 counterexample: single torrent with 50
seeds, so its maximum is 50. -/
def popMovieC1 : Movie :=
  { ytsMovieC1 with torrents := [exTorrent 50] }

/-- Secondary record tying the first-torrent seed count of movieA. -/
def popMovieTie : Movie :=
  { movieA with title := "AlphaPop" }

/-- Counterexample to claim C1 as stated: both providers return a
record, the primary record has the strictly larger maximum torrent seed
count (100 against 50), yet the handler returns the secondary record,
because the comparison at library.js line 174 reads only the first
torrent of each list (10 against 50). -/
theorem imdbCode_max_seed_counterexample :
    maxSeeds popMovieC1 < maxSeeds ytsMovieC1 ∧
    imdbCodeHandler id (some [ytsMovieC1]) (some popMovieC1) =
      ApiResponse.ok [popMovieC1] := by
  decide

/-- Claim C1 amended: when both providers return a record and each
record exposes a first torrent, the handler returns (enriched) the
record whose FIRST-torrent seed count is greater, keeping the primary
when the counts are greater-or-equal in its favour. -/
theorem imdbCode_first_seed_choice (moreInfo : Movie → Movie) (ytsData : List Movie)
    (popMovie : Movie) (ys ps : Nat)
    (hy : firstTorrentSeeds? ytsData = some ys)
    (hp : firstTorrentSeeds? [popMovie] = some ps) :
    (ps ≤ ys → imdbCodeHandler moreInfo (some ytsData) (some popMovie) =
        ApiResponse.ok (getMovieMoreInfo moreInfo ytsData)) ∧
    (ys < ps → imdbCodeHandler moreInfo (some ytsData) (some popMovie) =
        ApiResponse.ok (getMovieMoreInfo moreInfo [popMovie])) := by
  constructor
  · intro hle
    simp [imdbCodeHandler, hy, hp, hle]
  · intro hlt
    have hnle : ¬ (ps ≤ ys) := Nat.not_le.mpr hlt
    simp [imdbCodeHandler, hy, hp, hnle]

/-- Witness for the amended C1 at a concrete input. -/
theorem imdbCode_first_seed_choice_witness :
    (50 ≤ 10 → imdbCodeHandler id (some [ytsMovieC1]) (some popMovieC1) =
        ApiResponse.ok (getMovieMoreInfo id [ytsMovieC1])) ∧
    (10 < 50 → imdbCodeHandler id (some [ytsMovieC1]) (some popMovieC1) =
        ApiResponse.ok (getMovieMoreInfo id [popMovieC1])) :=
  imdbCode_first_seed_choice id [ytsMovieC1] popMovieC1 10 50 rfl rfl

/-- Claim C9: when the two compared seed counts are equal the primary
record is the one returned, because the comparison at line 174 is
greater-or-equal. -/
theorem imdbCode_tie_prefers_primary (moreInfo : Movie → Movie) (ytsData : List Movie)
    (popMovie : Movie) (s : Nat)
    (hy : firstTorrentSeeds? ytsData = some s)
    (hp : firstTorrentSeeds? [popMovie] = some s) :
    imdbCodeHandler moreInfo (some ytsData) (some popMovie) =
      ApiResponse.ok (getMovieMoreInfo moreInfo ytsData) := by
  simp [imdbCodeHandler, hy, hp]

/-- Witness for C9 at a concrete input with a 50-50 tie. -/
theorem imdbCode_tie_prefers_primary_witness :
    imdbCodeHandler id (some [movieA]) (some popMovieTie) =
      ApiResponse.ok (getMovieMoreInfo id [movieA]) :=
  imdbCode_tie_prefers_primary id [movieA] popMovieTie 50 rfl rfl

/-- A record with an empty torrents list. -/
def movieNoTorrents : Movie :=
  { movieA with imdb_code := "tt0000004", torrents := [] }

/-- Claim C10: when both providers return a record but either record
carries an empty torrents list, the indexing torrents[0].seeds at line
174 dereferences undefined, the thrown error is caught, and the request
resolves as HTTP 500. -/
theorem imdbCode_empty_torrents_500 (moreInfo : Movie → Movie) (y : Movie)
    (rest : List Movie) (popMovie : Movie)
    (h : y.torrents = [] ∨ popMovie.torrents = []) :
    imdbCodeHandler moreInfo (some (y :: rest)) (some popMovie) =
      ApiResponse.serverError := by
  rcases h with h | h
  · have hy : firstTorrentSeeds? (y :: rest) = none := by
      simp [firstTorrentSeeds?, h]
    cases hp : firstTorrentSeeds? [popMovie] <;> simp [imdbCodeHandler, hy, hp]
  · have hp : firstTorrentSeeds? [popMovie] = none := by
      simp [firstTorrentSeeds?, h]
    cases hy : firstTorrentSeeds? (y :: rest) <;> simp [imdbCodeHandler, hy, hp]

/-- Witness for C10 at a concrete input where the primary record has no
torrents. -/
theorem imdbCode_empty_torrents_500_witness :
    imdbCodeHandler id (some [movieNoTorrents]) (some movieB) =
      ApiResponse.serverError :=
  imdbCode_empty_torrents_500 id movieNoTorrents [] movieB (Or.inl rfl)

/-! Claims about the keyword-search handler. -/

/-- Helper: the two branches of the secondary loop guarded by the
emptiness test never fire, because the tested array is freshly built
with exactly one pushed element. -/
theorem popAccumLoop_eq_clean (popFor : String → Option Movie) (torrentFail : Bool)
    (cands : List String) :
    ∀ (movies : List Movie),
      popAccumLoop popFor torrentFail cands movies = popAccumLoopClean popFor cands movies := by
  induction cands with
  | nil => intro movies; rfl
  | cons c rest ih =>
    intro movies
    simp only [popAccumLoop, popAccumLoopClean]
    cases hc : popFor c with
    | none => exact ih movies
    | some popMovie =>
      simp only [List.isEmpty_cons, Bool.false_eq_true, false_and, if_false]
      exact ih ([popMovie] ++ movies)

/-- Claim C7: when the search provider reports an unsuccessful response
the handler answers 404; the movie-provider fetches happen only after
that return, so the outcome is independent of both providers. -/
theorem keyword_search_fail_404 (moreInfo : Movie → Movie)
    (ytsFor : String → Option (List Movie)) (popFor : String → Option Movie)
    (search : List String) :
    keywordHandler moreInfo ytsFor popFor ⟨false, search⟩ = ApiResponse.notFound := rfl

/-- Claim C8: in the secondary loop the freshly built array holds
exactly one element whenever the emptiness test runs, so the branch
answering 404 Torrent-not-found and the branch returning the
accumulated movies early are unreachable: the loop equals the same loop
with the two branches removed, on every input. -/
theorem popLoop_dead_branches (popFor : String → Option Movie) (torrentFail : Bool)
    (cands : List String) (movies : List Movie) :
    popAccumLoop popFor torrentFail cands movies = popAccumLoopClean popFor cands movies :=
  popAccumLoop_eq_clean popFor torrentFail cands movies

/-- Record returned by the secondary provider in the C3 scenario. -/
def popMovieC3 : Movie :=
  { imdb_code := "tt0000005", title := "Delta", year := 2003, runtime := 80, rating := 6
    genres := ["Drama"], summary := "s", language := "en", large_cover_image := "u"
    torrents := [exTorrent 5] }

/-- Counterexample to claim C3 as stated: the search provider returns a
single candidate, the primary provider finds data for none of the
candidates, and the secondary provider returns a record for it; the
claim requires a 404 outcome regardless of the secondary provider, but
the handler answers 200 with the secondary record. -/
theorem keyword_primary_all_fail_counterexample :
    keywordHandler id (fun _ => none) (fun _ => some popMovieC3) ⟨true, ["tt0000005"]⟩ =
        ApiResponse.ok [popMovieC3] ∧
      keywordHandler id (fun _ => none) (fun _ => some popMovieC3) ⟨true, ["tt0000005"]⟩ ≠
        ApiResponse.notFound := by
  decide

/-- Helper: when every candidate of the prefix succeeds on the primary
and the next candidate fails, the primary loop consumes exactly the
prefix, then sets the failure flag and exits: the candidates after the
failing one are never queried on the primary. -/
theorem ytsAccumLoop_break (moreInfo : Movie → Movie)
    (ytsFor : String → Option (List Movie)) (c : String) (post : List String)
    (hfail : ytsFor c = none) :
    ∀ (pre : List String) (movies0 : List Movie),
      (∀ c' ∈ pre, ytsFor c' ≠ none) →
      ytsAccumLoop moreInfo ytsFor (pre ++ c :: post) movies0 =
        ((ytsAccumLoop moreInfo ytsFor pre movies0).1, true) := by
  intro pre
  induction pre with
  | nil =>
    intro movies0 _
    simp [ytsAccumLoop, hfail]
  | cons p ps ih =>
    intro movies0 hpre
    have hp : ytsFor p ≠ none := hpre p (List.mem_cons_self _ _)
    cases hps : ytsFor p with
    | none => exact absurd hps hp
    | some l =>
      simp only [List.cons_append, ytsAccumLoop, hps]
      exact ih _ (fun c' hc' => hpre c' (List.mem_cons_of_mem _ hc'))

/-- Claim C3 amended: a failure of the primary provider on an
individual candidate, at any position of the deduped candidate list,
sets the failure flag and breaks out of the primary loop: the
candidates after the failing one are never queried on the primary, only
the candidates before it contribute primary data, and the overall
response is whatever the secondary loop alone produces on that partial
accumulation — never the 404 Torrent-not-found branch.  In particular,
when the primary finds data for no candidate, the response is still the
200 outcome of the secondary loop. -/
theorem keyword_primary_fail_breaks (moreInfo : Movie → Movie)
    (ytsFor : String → Option (List Movie)) (popFor : String → Option Movie)
    (search pre post : List String) (c : String)
    (hc : uniqBy (fun s => s) search = pre ++ c :: post)
    (hpre : ∀ c' ∈ pre, ytsFor c' ≠ none)
    (hfail : ytsFor c = none) :
    (ytsAccumLoop moreInfo ytsFor (pre ++ c :: post) []).2 = true ∧
    (ytsAccumLoop moreInfo ytsFor (pre ++ c :: post) []).1 =
      (ytsAccumLoop moreInfo ytsFor pre []).1 ∧
    keywordHandler moreInfo ytsFor popFor ⟨true, search⟩ =
      popAccumLoopClean popFor (pre ++ c :: post)
        ((ytsAccumLoop moreInfo ytsFor pre []).1.insertionSort titleLe) := by
  have hbreak := ytsAccumLoop_break moreInfo ytsFor c post hfail pre [] hpre
  refine ⟨by rw [hbreak], by rw [hbreak], ?_⟩
  simp only [keywordHandler, hc, Bool.true_eq_false, if_false, hbreak]
  exact popAccumLoop_eq_clean popFor true _ _

/-- Primary responses for the C3 witness: data for candidate a only. -/
def ytsForC3 : String → Option (List Movie) :=
  fun s => if s = "a" then some [movieB] else none

/-- Secondary responses for the C3 witness: a record for every candidate. -/
def popForC3 : String → Option Movie := fun _ => some popMovieC3

/-- Witness for the amended C3 at a concrete input where the primary
succeeds on the first candidate and fails on the second, with a third
candidate left after the break. -/
theorem keyword_primary_fail_breaks_witness :
    (ytsAccumLoop id ytsForC3 (["a"] ++ "b" :: ["d"]) []).2 = true ∧
    (ytsAccumLoop id ytsForC3 (["a"] ++ "b" :: ["d"]) []).1 =
      (ytsAccumLoop id ytsForC3 ["a"] []).1 ∧
    keywordHandler id ytsForC3 popForC3 ⟨true, ["a", "b", "d"]⟩ =
      popAccumLoopClean popForC3 (["a"] ++ "b" :: ["d"])
        ((ytsAccumLoop id ytsForC3 ["a"] []).1.insertionSort titleLe) :=
  keyword_primary_fail_breaks id ytsForC3 popForC3 ["a", "b", "d"] ["a"] ["d"] "b"
    (by decide) (by decide) (by decide)

end Hypertube
